import Mathlib

/-!
# Courtside-Stats: verification of the live-game and stats-cache subsystems

Shallow embedding of the backend of the Courtside-Stats repository:

* `src/backend/src/controllers/gameController.ts` — `simulateGameEvent`,
  `updateGameScore`, the Mongo update documents they issue;
* `src/backend/src/models/Player.model.ts` — the `NBAApiService` class
  (`getPlayers`, `getCachedPlayers`, `getPlayerGameStats`, `getDatesInRange`,
  `fetchFromSportsDataAPI`, `getDevelopmentPlayers`);
* `src/backend/src/sockets/gameSocket.ts` — the `join-game` and `game-action`
  socket handlers;
* the Mongoose `Game` schema (status and highlight enumerations).

Effects are made explicit: the Mongo collections are association lists passed
and returned, `Math.random` draws are a `SimRandom` record of pre-drawn
choices, upstream HTTP calls are an oracle function or `Except` value, and
socket emissions are returned as a list of `Emission` values.  Network
activity is logged explicitly (a list of fetched dates, a `networkCalled`
flag) so that cache-discipline statements are expressible.
-/

/-! ### JavaScript string primitives

The source is TypeScript; the string operations it uses
(`String.prototype.startsWith`, `split`, single-occurrence `replace`,
`parseInt`, sorting by a string key) are embedded below as structurally
recursive functions on `String.data`, so that every definition in this file
evaluates inside the kernel. -/

/-- `startsWithChars ps cs` decides whether `ps` is an initial segment of
`cs` (helper for `strStartsWith`). -/
def startsWithChars : List Char → List Char → Bool
  | [], _ => true
  | _ :: _, [] => false
  | p :: ps, c :: cs => p == c && startsWithChars ps cs

/-- JS `s.startsWith(pre)`. -/
def strStartsWith (s pre : String) : Bool :=
  startsWithChars pre.data s.data

/-- Split a character list at every occurrence of `sep`
(helper for `strSplitOnChar`). -/
def splitOnChar (sep : Char) : List Char → List (List Char)
  | [] => [[]]
  | c :: cs =>
    let r := splitOnChar sep cs
    if c == sep then [] :: r
    else
      match r with
      | [] => [[c]]
      | h :: t => (c :: h) :: t

/-- JS `s.split(sep)` for a one-character separator. -/
def strSplitOnChar (s : String) (sep : Char) : List String :=
  (splitOnChar sep s.data).map (fun l => String.mk l)

/-- JS `s.replace(target, '')` for a one-character target: removes the first
occurrence only. -/
def removeFirstChar (target : Char) : List Char → List Char
  | [] => []
  | c :: cs => if c == target then cs else c :: removeFirstChar target cs

/-- Decimal value of the leading digit run (helper for `parseIntD`). -/
def digitsValue : List Char → Nat → Nat
  | [], acc => acc
  | c :: cs, acc =>
    if c.isDigit then digitsValue cs (acc * 10 + (c.toNat - 48)) else acc

/-- JS `parseInt(s)` as used by the code: the value of the leading digit run
(the code's `|| '0'` fallback makes the no-digit case read as `0`). -/
def parseIntD (s : String) : Nat :=
  digitsValue s.data 0

/-- Lexicographic order on character lists (helper for `sortByLastName`). -/
def charsLe : List Char → List Char → Bool
  | [], _ => true
  | _ :: _, [] => false
  | a :: as, b :: bs => if a == b then charsLe as bs else decide (a < b)

/-- The apostrophe character, the separator of the cached height format. -/
def apostropheChar : Char := Char.ofNat 39

/-- The double-quote character, trailing in the cached height format. -/
def quoteChar : Char := Char.ofNat 34

/-- `status` enumeration of the Mongoose `GameSchema`:
`enum: ['scheduled', 'live', 'final']`. -/
inductive GameStatus where
  | scheduled
  | live
  | final
deriving DecidableEq, Repr

/-- `type` enumeration of the highlight subdocument of `GameSchema`:
`enum: ['score', 'turnover', 'foul', 'timeout']`. -/
inductive HighlightType where
  | score
  | turnover
  | foul
  | timeout
deriving DecidableEq, Repr

/-- One entry of `GameSchema.highlights`.  The Mongo `ObjectId` reference to
the player is modelled as a `Nat`. -/
structure Highlight where
  time : String
  quarter : Nat
  description : String
  player : Option Nat
  type : HighlightType
deriving DecidableEq, Repr

/-- The `scores.home` / `scores.away` pair of a game document (the
quarter-breakdown subdocument is never read or written by the code under
verification and is omitted). -/
structure Scores where
  home : Nat
  away : Nat
deriving DecidableEq, Repr

/-- A persisted game document (the fields of `GameSchema` read or written by
the controllers and socket handlers). -/
structure Game where
  gameId : String
  status : GameStatus
  quarter : Nat
  timeRemaining : String
  scores : Scores
  highlights : List Highlight
deriving DecidableEq, Repr

/-- The games collection: an association list from the Mongo document id
(`_id`, modelled as a `String`) to the game document. -/
def GameDB := List (String × Game)
deriving DecidableEq, Repr

/-- `Game.findById(id)`: first entry with the given key, if any. -/
def findById (db : GameDB) (id : String) : Option Game :=
  (List.find? (fun p => p.1 == id) db).map (fun p => p.2)

/-- A Mongo update document against one game, as issued by
`Game.findByIdAndUpdate` call sites: `$set` on scalar fields
(`scores.home`, `scores.away`, `quarter`, `timeRemaining`, `status`),
and on the highlight list either a whole-list `$set` (`setHighlights`)
or a `$push` append (`pushHighlights`).  The two highlight paths are kept
distinct so that append-only persistence is expressible. -/
structure GameUpdate where
  setHome : Option Nat
  setAway : Option Nat
  setQuarter : Option Nat
  setTimeRemaining : Option String
  setStatus : Option GameStatus
  setHighlights : Option (List Highlight)
  pushHighlights : List Highlight
deriving DecidableEq, Repr

/-- Semantics of applying one update document to one game document:
`$set` fields replace, absent fields persist, and `$push` appends after any
whole-list `$set`. -/
def applyGameUpdate (g : Game) (u : GameUpdate) : Game :=
  { g with
    scores := { home := u.setHome.getD g.scores.home,
                away := u.setAway.getD g.scores.away }
    quarter := u.setQuarter.getD g.quarter
    timeRemaining := u.setTimeRemaining.getD g.timeRemaining
    status := u.setStatus.getD g.status
    highlights := (u.setHighlights.getD g.highlights) ++ u.pushHighlights }

/-- `Game.findByIdAndUpdate(id, update, { new: true })`: atomically applies
the update document to the addressed document and returns the new document
(`none` and an unchanged collection when the id is absent). -/
def findByIdAndUpdate (db : GameDB) (id : String) (u : GameUpdate) :
    Option Game × GameDB :=
  match findById db id with
  | none => (none, db)
  | some g =>
    let g2 := applyGameUpdate g u
    (some g2, db.map (fun p => if p.1 == id then (p.1, g2) else p))

/-- `dataSource` enumeration of the Mongoose `PlayerSchema`. -/
inductive DataSource where
  | sportsdata
  | manual
  | cache
deriving DecidableEq, Repr

/-- A persisted player document (the fields of `PlayerSchema` read or written
by the code under verification).  `lastUpdated` is a millisecond timestamp. -/
structure Player where
  _id : Nat
  playerId : Nat
  firstName : String
  lastName : String
  position : String
  team : String
  height : String
  weight : Nat
  dataSource : DataSource
  lastUpdated : Nat
deriving DecidableEq, Repr

/-- `gameController.ts`: the candidate event pool of `simulateGameEvent`. -/
def eventTypes : List String :=
  ["2pt-made", "2pt-miss", "3pt-made", "3pt-miss", "foul", "turnover"]

/-- `gameController.ts` `getEventDescription`. -/
def getEventDescription (eventType : String) : String :=
  if eventType == "2pt-made" then "makes a 2-point shot"
  else if eventType == "2pt-miss" then "misses a 2-point shot"
  else if eventType == "3pt-made" then "makes a 3-pointer"
  else if eventType == "3pt-miss" then "misses a 3-pointer"
  else if eventType == "foul" then "commits a foul"
  else if eventType == "turnover" then "turns over the ball"
  else "makes a play"

/-- The three `Math.random()` draws of one `simulateGameEvent` run, pre-drawn:
`Math.floor(Math.random() * n)` is modelled as an arbitrary natural reduced
`% n` at use sites, and `Math.random() > 0.5` as a `Bool`. -/
structure SimRandom where
  eventIndex : Nat
  playerIndex : Nat
  isHomeTeam : Bool
deriving DecidableEq, Repr

/-- The distinguishable responses of `simulateGameEvent`:
404 (game not found), 400 (no players in database), the two defensive 500
branches, and the 200 success response carrying the chosen event type, the
built highlight and the updated game returned by `findByIdAndUpdate`. -/
inductive SimResult where
  | notFound
  | noPlayers
  | serverError (message : String)
  | ok (event : String) (highlight : Highlight) (game : Option Game)
deriving DecidableEq, Repr

/-- The update document issued by the persistence step of
`simulateGameEvent`: `$set` of both scalar scores and `$push` of exactly the
one new highlight — never a whole-list overwrite. -/
def simUpdate (highlight : Highlight) (homeScoreUpdate awayScoreUpdate : Nat) :
    GameUpdate :=
  { setHome := some homeScoreUpdate
    setAway := some awayScoreUpdate
    setQuarter := none
    setTimeRemaining := none
    setStatus := none
    setHighlights := none
    pushHighlights := [highlight] }

/-- `gameController.ts` `simulateGameEvent`.  `playersColl` is the players
collection; the code draws its pool from `Player.find().limit(10)`,
modelled as `playersColl.take 10`. -/
def simulateGameEvent (db : GameDB) (id : String) (playersColl : List Player)
    (r : SimRandom) : SimResult × GameDB :=
  match findById db id with
  | none => (SimResult.notFound, db)
  | some game =>
    match eventTypes[r.eventIndex % eventTypes.length]? with
    | none =>
      (SimResult.serverError "Unexpected error: Could not select a random Event", db)
    | some randomEvent =>
      let players := playersColl.take 10
      if players.length == 0 then
        (SimResult.noPlayers, db)
      else
        match players[r.playerIndex % players.length]? with
        | none =>
          (SimResult.serverError "Unexpected error: Could not select a random player", db)
        | some randomPlayer =>
          let highlight : Highlight :=
            { time := game.timeRemaining
              quarter := game.quarter
              description := randomPlayer.firstName ++ " " ++ randomPlayer.lastName
                ++ " " ++ getEventDescription randomEvent
              player := some randomPlayer._id
              type := HighlightType.score }
          let scoreUpdates : Nat × Nat :=
            if randomEvent == "2pt-made" then
              if r.isHomeTeam then (game.scores.home + 2, game.scores.away)
              else (game.scores.home, game.scores.away + 2)
            else if randomEvent == "3pt-made" then
              if r.isHomeTeam then (game.scores.home + 3, game.scores.away)
              else (game.scores.home, game.scores.away + 3)
            else (game.scores.home, game.scores.away)
          let upd := findByIdAndUpdate db id (simUpdate highlight scoreUpdates.1 scoreUpdates.2)
          (SimResult.ok randomEvent highlight upd.1, upd.2)

/-- The request body of `updateGameScore` (`PUT /api/games/:id/score`): any
subset of the updatable fields plus an optional highlight to append. -/
structure ScorePatch where
  homeScore : Option Nat
  awayScore : Option Nat
  quarter : Option Nat
  timeRemaining : Option String
  status : Option GameStatus
  highlight : Option Highlight
deriving DecidableEq, Repr

/-- The update document built by `updateGameScore`: `$set` for each provided
field and `$push` for the optional highlight. -/
def updateScoreDoc (p : ScorePatch) : GameUpdate :=
  { setHome := p.homeScore
    setAway := p.awayScore
    setQuarter := p.quarter
    setTimeRemaining := p.timeRemaining
    setStatus := p.status
    setHighlights := none
    pushHighlights := match p.highlight with | some h => [h] | none => [] }

/-- The distinguishable responses of `updateGameScore`. -/
inductive UpdateScoreResult where
  | notFound
  | ok (game : Game)
deriving DecidableEq, Repr

/-- `gameController.ts` `updateGameScore`. -/
def updateGameScore (db : GameDB) (id : String) (p : ScorePatch) :
    UpdateScoreResult × GameDB :=
  match findByIdAndUpdate db id (updateScoreDoc p) with
  | (none, db2) => (UpdateScoreResult.notFound, db2)
  | (some game, db2) => (UpdateScoreResult.ok game, db2)

/-- `Player.model.ts` `NBAApiService.cacheTTL`: 24 hours in milliseconds. -/
def cacheTTL : Nat := 1000 * 60 * 60 * 24

/-- One raw record of the upstream `PlayerGameStatsByDate` response (the
fields the code reads to filter and map). -/
structure StatRecord where
  StatID : Nat
  PlayerID : Nat
  Points : Nat
deriving DecidableEq, Repr

/-- One element of the mapped `data` array returned by `getPlayerGameStats`
(the per-element transform is a field renaming; the fields needed by the
claims are kept). -/
structure MappedGameStat where
  id : Nat
  pts : Nat
  player_id : Nat
deriving DecidableEq, Repr

/-- `NBAApiService.getDatesInRange`: every calendar day from `startDate` to
`endDate` inclusive.  Calendar days are modelled as day numbers. -/
def getDatesInRange (startDate endDate : Nat) : List Nat :=
  (List.range (endDate + 1 - startDate)).map (fun i => startDate + i)

/-- One iteration of the per-date loop of `getPlayerGameStats`: fetch the
date, filter the day's records to the requested player and append them to the
accumulator; on a fetch error the day is skipped (`continue with other
dates`).  The second component logs the date of every issued upstream
fetch. -/
def queryDate (playerId : Nat) (fetch : Nat → Except String (List StatRecord))
    (acc : List StatRecord × List Nat) (date : Nat) :
    List StatRecord × List Nat :=
  match fetch date with
  | Except.ok data =>
    (acc.1 ++ data.filter (fun game => game.PlayerID == playerId), acc.2 ++ [date])
  | Except.error _ => (acc.1, acc.2 ++ [date])

/-- `NBAApiService.getPlayerGameStats`, with the upstream HTTP GET per date
modelled by the oracle `fetch` and the issued fetches logged in the second
component of the result. -/
def getPlayerGameStats (useRealAPI : Bool) (apiKey : String) (playerId : Nat)
    (startDate endDate : Nat) (fetch : Nat → Except String (List StatRecord)) :
    Except String (List MappedGameStat) × List Nat :=
  if !useRealAPI || apiKey == "" then
    (Except.error "Real API not available - check API key configuration", [])
  else
    let dates := getDatesInRange startDate endDate
    let acc := dates.foldl (queryDate playerId fetch) ([], [])
    if acc.1.isEmpty then
      (Except.error "No game data found for player in date range", acc.2)
    else
      (Except.ok (acc.1.map (fun game =>
        { id := game.StatID, pts := game.Points, player_id := game.PlayerID })), acc.2)

/-- `NBAApiService.getTeamCity`. -/
def getTeamCity (abbreviation : String) : String :=
  let teamMap : List (String × String) :=
    [("LAL", "Los Angeles"), ("GSW", "Golden State"), ("BOS", "Boston"),
     ("PHX", "Phoenix"), ("MIL", "Milwaukee"), ("CHI", "Chicago"),
     ("MIA", "Miami"), ("DEN", "Denver"), ("DAL", "Dallas"),
     ("PHI", "Philadelphia"), ("BKN", "Brooklyn"), ("ATL", "Atlanta")]
  ((teamMap.find? (fun p => p.1 == abbreviation)).map (fun p => p.2)).getD abbreviation

/-- The `team` object of a roster entry in the app format.  `city` is
`none` where the producing code path leaves the field absent. -/
structure TeamRef where
  id : Nat
  abbreviation : String
  city : Option String
  full_name : String
  name : String
deriving DecidableEq, Repr

/-- A roster entry in the app format (the shape produced by
`fetchFromSportsDataAPI`, `getCachedPlayers` and `getDevelopmentPlayers`). -/
structure APIPlayer where
  id : Nat
  first_name : String
  last_name : String
  position : String
  height_feet : Option Nat
  height_inches : Option Nat
  weight_pounds : Nat
  team : TeamRef
deriving DecidableEq, Repr

/-- Pagination metadata attached to a roster response.  Note: no field of the
response carries a data-source tag. -/
structure PlayersMeta where
  total_pages : Nat
  current_page : Nat
  next_page : Option Nat
  per_page : Nat
  total_count : Nat
deriving DecidableEq, Repr

/-- A roster response: `data` plus pagination `meta`. -/
structure PlayersResult where
  data : List APIPlayer
  meta : PlayersMeta
deriving DecidableEq, Repr

/-- The fixed developer dataset of `getDevelopmentPlayers`. -/
def developmentPlayers : List APIPlayer :=
  [{ id := 20000679, first_name := "LeBron", last_name := "James",
     position := "F", height_feet := some 6, height_inches := some 8,
     weight_pounds := 250,
     team := { id := 14, abbreviation := "LAL", city := some "Los Angeles",
               full_name := "Los Angeles Lakers", name := "Lakers" } },
   { id := 20000507, first_name := "Stephen", last_name := "Curry",
     position := "G", height_feet := some 6, height_inches := some 2,
     weight_pounds := 185,
     team := { id := 10, abbreviation := "GSW", city := some "Golden State",
               full_name := "Golden State Warriors", name := "Warriors" } }]

/-- `NBAApiService.getDevelopmentPlayers`: the paginated fixed dataset. -/
def getDevelopmentPlayers (page perPage : Nat) : PlayersResult :=
  let start := page * perPage
  let paginatedPlayers := ((developmentPlayers.drop start).take perPage)
  let totalPages := (developmentPlayers.length + perPage - 1) / perPage
  { data := paginatedPlayers
    meta := { total_pages := totalPages
              current_page := page
              next_page := if page < totalPages - 1 then some (page + 1) else none
              per_page := perPage
              total_count := developmentPlayers.length } }

/-- One raw record of the upstream `PlayersActiveBasic` response. -/
structure RawSDPlayer where
  PlayerID : Nat
  FirstName : String
  LastName : String
  Position : String
  Height : Option Nat
  Weight : Nat
  TeamID : Nat
  Team : String
deriving DecidableEq, Repr

/-- The per-record transform of `fetchFromSportsDataAPI` from the
SportsData.io `PlayerBasic` format to the app format. -/
def transformSDPlayer (player : RawSDPlayer) : APIPlayer :=
  { id := player.PlayerID
    first_name := player.FirstName
    last_name := player.LastName
    position := player.Position
    height_feet := player.Height.map (fun h => h / 12)
    height_inches := player.Height.map (fun h => h % 12)
    weight_pounds := player.Weight
    team := { id := player.TeamID
              abbreviation := player.Team
              city := some (getTeamCity player.Team)
              full_name := if player.Team == "" then "Free Agent"
                           else getTeamCity player.Team ++ " " ++ player.Team
              name := player.Team } }

/-- `NBAApiService.fetchFromSportsDataAPI`, with the axios GET modelled by
the `upstream` value.  With no API key it returns the developer dataset
without touching the network; otherwise it performs the network call and
rethrows its error.  The `Bool` records whether a network call was made. -/
def fetchFromSportsDataAPI (apiKey : String)
    (upstream : Except String (List RawSDPlayer)) :
    Except String (List APIPlayer) × Bool :=
  if apiKey == "" then (Except.ok (getDevelopmentPlayers 0 25).data, false)
  else
    match upstream with
    | Except.error e => (Except.error e, true)
    | Except.ok data => (Except.ok (data.map transformSDPlayer), true)

/-- Insertion step of `sortByLastName`. -/
def insertByLastName (p : Player) : List Player → List Player
  | [] => [p]
  | q :: qs =>
    if charsLe p.lastName.data q.lastName.data then p :: q :: qs
    else q :: insertByLastName p qs

/-- The `.sort({ lastName: 1 })` of the cached-roster query: a stable sort of
the documents by last name, ascending. -/
def sortByLastName : List Player → List Player
  | [] => []
  | p :: ps => insertByLastName p (sortByLastName ps)

/-- The transform of `getCachedPlayers` from a cached `Player` document back
to the app format.  The height string is parsed back (`parseInt` of the part
before `'`, and of the part after with the trailing `"` removed); the `team`
object carries no `city` field on this path. -/
def cachedToAPIPlayer (player : Player) : APIPlayer :=
  { id := player.playerId
    first_name := player.firstName
    last_name := player.lastName
    position := player.position
    height_feet :=
      some (parseIntD ((strSplitOnChar player.height apostropheChar).headD "0"))
    height_inches :=
      some (parseIntD (String.mk (removeFirstChar quoteChar
        ((strSplitOnChar player.height apostropheChar).getD 1 "0").data)))
    weight_pounds := player.weight
    team := { id := 0
              abbreviation := (strSplitOnChar player.team ' ').getLastD ""
              city := none
              full_name := player.team
              name := (strSplitOnChar player.team ' ').getLastD "" } }

/-- `NBAApiService.getCachedPlayers`: the cached roster entries
(`dataSource: 'sportsdata'`) whose `lastUpdated` is within the TTL window,
sorted by last name and paginated; `none` when the page is empty. -/
def getCachedPlayers (playersColl : List Player) (now : Nat)
    (page perPage : Nat) : Option PlayersResult :=
  let cacheCutoff := now - cacheTTL
  let fresh := playersColl.filter
    (fun p => p.dataSource == DataSource.sportsdata
      && decide (cacheCutoff ≤ p.lastUpdated))
  let sorted := sortByLastName fresh
  let cachedPlayers := (sorted.drop (page * perPage)).take perPage
  if 0 < cachedPlayers.length then
    let total := (playersColl.filter
      (fun p => p.dataSource == DataSource.sportsdata)).length
    let totalPages := (total + perPage - 1) / perPage
    some { data := cachedPlayers.map cachedToAPIPlayer
           meta := { total_pages := totalPages
                     current_page := page
                     next_page := if page < totalPages - 1 then some (page + 1) else none
                     per_page := perPage
                     total_count := total } }
  else none

/-- The `${height_feet}'${height_inches}"` format string used when caching a
roster entry (`null` where the field is absent, as in the template string). -/
def heightString (apiPlayer : APIPlayer) : String :=
  (match apiPlayer.height_feet with | some f => toString f | none => "null")
    ++ "'"
    ++ (match apiPlayer.height_inches with | some i => toString i | none => "null")
    ++ "\""

/-- One `Player.findOneAndUpdate(..., { upsert: true })` step of
`cachePlayers`: update the document keyed by `playerId`, or insert it. -/
def upsertCachedPlayer (now : Nat) (coll : List Player)
    (apiPlayer : APIPlayer) : List Player :=
  if coll.any (fun p => p.playerId == apiPlayer.id) then
    coll.map (fun p =>
      if p.playerId == apiPlayer.id then
        { p with firstName := apiPlayer.first_name
                 lastName := apiPlayer.last_name
                 position := apiPlayer.position
                 team := apiPlayer.team.full_name
                 height := heightString apiPlayer
                 weight := apiPlayer.weight_pounds
                 dataSource := DataSource.sportsdata
                 lastUpdated := now }
      else p)
  else
    coll ++ [{ _id := apiPlayer.id
               playerId := apiPlayer.id
               firstName := apiPlayer.first_name
               lastName := apiPlayer.last_name
               position := apiPlayer.position
               team := apiPlayer.team.full_name
               height := heightString apiPlayer
               weight := apiPlayer.weight_pounds
               dataSource := DataSource.sportsdata
               lastUpdated := now }]

/-- `NBAApiService.cachePlayers`: upsert every fetched roster entry. -/
def cachePlayers (playersColl : List Player) (apiPlayers : List APIPlayer)
    (now : Nat) : List Player :=
  apiPlayers.foldl (upsertCachedPlayer now) playersColl

/-- The observable outcome of one `getPlayers` call: the response, the
players collection afterwards, and whether a network call was issued. -/
structure GetPlayersOut where
  result : PlayersResult
  playersColl : List Player
  networkCalled : Bool
deriving DecidableEq, Repr

/-- `NBAApiService.getPlayers`: development short-circuit, then fresh-cache
lookup, then the upstream fetch with caching of its result; a fetch failure
falls back to `getDevelopmentPlayers`. -/
def getPlayers (useRealAPI : Bool) (apiKey : String) (page perPage : Nat)
    (forceRefresh : Bool) (playersColl : List Player) (now : Nat)
    (upstream : Except String (List RawSDPlayer)) : GetPlayersOut :=
  if !useRealAPI && !forceRefresh then
    { result := getDevelopmentPlayers page perPage
      playersColl := playersColl
      networkCalled := false }
  else
    let cached :=
      if !forceRefresh then getCachedPlayers playersColl now page perPage else none
    match cached with
    | some c =>
      { result := c, playersColl := playersColl, networkCalled := false }
    | none =>
      match fetchFromSportsDataAPI apiKey upstream with
      | (Except.error _, nc) =>
        { result := getDevelopmentPlayers page perPage
          playersColl := playersColl
          networkCalled := nc }
      | (Except.ok apiPlayers, nc) =>
        let coll2 := cachePlayers playersColl apiPlayers now
        let start := page * perPage
        let paginatedPlayers := (apiPlayers.drop start).take perPage
        let totalPages := (apiPlayers.length + perPage - 1) / perPage
        { result := { data := paginatedPlayers
                      meta := { total_pages := totalPages
                                current_page := page
                                next_page := if page < totalPages - 1 then some (page + 1) else none
                                per_page := perPage
                                total_count := apiPlayers.length } }
          playersColl := coll2
          networkCalled := nc }

/-- A connection as the gateway sees it: the socket id and the set of rooms
the socket is in (`socket.rooms`; Socket.IO keeps the socket's own id in this
set). -/
structure SocketState where
  id : String
  rooms : List String
deriving DecidableEq, Repr

/-- Where an emission is delivered: back to the emitting socket, or to a
room (for `socket.to` the sender is excluded by the transport; for `io.to`
it is included — the distinction does not affect the claims). -/
inductive EmitTarget where
  | toSelf
  | toRoom (room : String)
deriving DecidableEq, Repr

/-- The outbound socket events emitted by the handlers under verification. -/
inductive SocketEvent where
  | errorMsg (message : String)
  | gameJoined (gameId : String) (game : Game) (message : String)
  | userJoined (userId : String) (message : String)
  | gameLeft (gameId : String)
  | simulationEvent (payload : String)
  | gameStats (gameId : String)
deriving DecidableEq, Repr

/-- One `emit` call: target and event. -/
structure Emission where
  target : EmitTarget
  event : SocketEvent
deriving DecidableEq, Repr

/-- `gameSocket.ts`, the `join-game` handler: validate that the game exists,
leave every room that starts with `game-` and is not the socket's own id,
join `game-<gameId>`, send the current game snapshot to the joining socket
and notify the room. -/
def joinGame (db : GameDB) (s : SocketState) (gameId : String) :
    SocketState × List Emission :=
  match findById db gameId with
  | none => (s, [{ target := EmitTarget.toSelf,
                   event := SocketEvent.errorMsg "Game not found" }])
  | some game =>
    let rooms1 := s.rooms.filter
      (fun room => !(strStartsWith room "game-" && room != s.id))
    let newRoom := "game-" ++ gameId
    let rooms2 := if rooms1.contains newRoom then rooms1 else rooms1 ++ [newRoom]
    ({ s with rooms := rooms2 },
     [{ target := EmitTarget.toSelf,
        event := SocketEvent.gameJoined gameId game ("Now watching game " ++ gameId) },
      { target := EmitTarget.toRoom newRoom,
        event := SocketEvent.userJoined s.id "A new viewer joined the game" }])

/-- `gameSocket.ts`, the `game-action` handler: require room membership and
an existing game, then dispatch on `actionType`.  The `simulate-event`
branch only re-broadcasts a `simulation-event` message carrying the payload
to the room; it does not touch the games collection. -/
def handleGameAction (db : GameDB) (s : SocketState)
    (gameId actionType payload : String) : GameDB × List Emission :=
  if !(s.rooms.contains ("game-" ++ gameId)) then
    (db, [{ target := EmitTarget.toSelf,
            event := SocketEvent.errorMsg "Not in game room" }])
  else
    match findById db gameId with
    | none => (db, [{ target := EmitTarget.toSelf,
                      event := SocketEvent.errorMsg "Game not found" }])
    | some _ =>
      if actionType == "simulate-event" then
        (db, [{ target := EmitTarget.toRoom ("game-" ++ gameId),
                event := SocketEvent.simulationEvent payload }])
      else if actionType == "request-stats" then
        (db, [{ target := EmitTarget.toSelf,
                event := SocketEvent.gameStats gameId }])
      else
        (db, [{ target := EmitTarget.toSelf,
                event := SocketEvent.errorMsg "Unknown action type" }])

/-! ### Concrete fixtures -/

/-- A players-collection document for concrete runs. -/
def lebronDoc : Player :=
  { _id := 7, playerId := 20000679, firstName := "LeBron", lastName := "James",
    position := "F", team := "Los Angeles Lakers", height := "6'8\"",
    weight := 250, dataSource := DataSource.manual, lastUpdated := 0 }

/-- A finished game. -/
def finalGame : Game :=
  { gameId := "G100", status := GameStatus.final, quarter := 4,
    timeRemaining := "0:00", scores := { home := 101, away := 99 },
    highlights := [] }

/-- A games collection holding only `finalGame`. -/
def finalDB : GameDB := [("g100", finalGame)]

/-- One concrete triple of random draws (first event type, first player,
home side). -/
def simRandomDraw : SimRandom :=
  { eventIndex := 0, playerIndex := 0, isHomeTeam := true }

/-- The highlight `simulateGameEvent` builds on `finalDB` under
`simRandomDraw`. -/
def finalHl : Highlight :=
  { time := "0:00", quarter := 4,
    description := "LeBron James makes a 2-point shot",
    player := some 7, type := HighlightType.score }

/-- The game document `finalDB`'s run persists. -/
def finalUpdatedGame : Game :=
  { gameId := "G100", status := GameStatus.final, quarter := 4,
    timeRemaining := "0:00", scores := { home := 103, away := 99 },
    highlights := [finalHl] }

/-- A pre-existing highlight, to observe prefix preservation. -/
def tipoffHl : Highlight :=
  { time := "12:00", quarter := 1, description := "tip-off won",
    player := none, type := HighlightType.score }

/-- A game in progress. -/
def liveGame : Game :=
  { gameId := "G200", status := GameStatus.live, quarter := 2,
    timeRemaining := "5:23", scores := { home := 40, away := 38 },
    highlights := [tipoffHl] }

/-- A games collection holding only `liveGame`. -/
def liveDB : GameDB := [("g200", liveGame)]

/-- The highlight built when the turnover event is drawn on a game with
`lebronDoc` as the only player. -/
def tovHl (g : Game) : Highlight :=
  { time := g.timeRemaining, quarter := g.quarter,
    description := "LeBron James turns over the ball",
    player := some 7, type := HighlightType.score }

/-- An administrative patch that only rewinds the status. -/
def regressPatch : ScorePatch :=
  { homeScore := none, awayScore := none, quarter := none,
    timeRemaining := none, status := some GameStatus.scheduled,
    highlight := none }

/-- The records one date of the per-date loop contributes: the day's fetched
records filtered to the requested player, nothing on a failed day. -/
def perDayRecords (playerId : Nat) (fetch : Nat → Except String (List StatRecord))
    (date : Nat) : List StatRecord :=
  match fetch date with
  | Except.ok data => data.filter (fun game => game.PlayerID == playerId)
  | Except.error _ => []

/-- A per-day oracle whose middle day fails. -/
def fetchW : Nat → Except String (List StatRecord) := fun d =>
  if d == 11 then Except.error "timeout"
  else Except.ok [{ StatID := d, PlayerID := 1, Points := 20 }]

/-- A cached roster document exactly as fresh as `tNow`. -/
def freshCachedLeBron : Player :=
  { _id := 1, playerId := 20000679, firstName := "LeBron",
    lastName := "James", position := "F", team := "Los Angeles Lakers",
    height := "6'8\"", weight := 250, dataSource := DataSource.sportsdata,
    lastUpdated := 100000000 }

/-- A clock instant at which `freshCachedLeBron` is younger than the TTL. -/
def tNow : Nat := 100000000

/-- The roster response assembled from the fresh cached document. -/
def cachedLeBronResult : PlayersResult :=
  { data := [{ id := 20000679, first_name := "LeBron", last_name := "James",
               position := "F", height_feet := some 6,
               height_inches := some 8, weight_pounds := 250,
               team := { id := 0, abbreviation := "Lakers", city := none,
                         full_name := "Los Angeles Lakers",
                         name := "Lakers" } }]
    meta := { total_pages := 1, current_page := 0, next_page := none,
              per_page := 25, total_count := 1 } }

/-- A cached roster document older than the TTL at `tStale`. -/
def staleCachedCurry : Player :=
  { _id := 2, playerId := 20000507, firstName := "Stephen",
    lastName := "Curry", position := "G", team := "Golden State Warriors",
    height := "6'2\"", weight := 185, dataSource := DataSource.sportsdata,
    lastUpdated := 0 }

/-- A clock instant at which `staleCachedCurry` has outlived the TTL. -/
def tStale : Nat := cacheTTL + 1000

/-- A connection already watching game `old`. -/
def sockW : SocketState := { id := "sock1", rooms := ["sock1", "game-old"] }

/-- A connection already in the room of the live game. -/
def sockSim : SocketState := { id := "sock9", rooms := ["sock9", "game-g200"] }

/-! ### Helper lemmas -/

theorem string_append_left_cancel {a b c : String} (h : a ++ b = a ++ c) :
    b = c := by
  apply String.ext
  have h2 := congrArg String.data h
  simp only [String.data_append] at h2
  exact List.append_cancel_left h2

theorem startsWithChars_append (cs ds : List Char) :
    startsWithChars cs (cs ++ ds) = true := by
  induction cs with
  | nil => rfl
  | cons c cs ih => simp [startsWithChars, ih]

theorem strStartsWith_append (pre rest : String) :
    strStartsWith (pre ++ rest) pre = true := by
  unfold strStartsWith
  rw [String.data_append]
  exact startsWithChars_append _ _

theorem findById_cons_pos (k : String) (v : Game) (tl : GameDB) (id : String)
    (h : (k == id) = true) : findById ((k, v) :: tl) id = some v := by
  unfold findById
  rw [List.find?_cons_of_pos (p := fun q => q.1 == id) tl h]
  rfl

theorem findById_cons_neg (k : String) (v : Game) (tl : GameDB) (id : String)
    (h : (k == id) = false) : findById ((k, v) :: tl) id = findById tl id := by
  unfold findById
  rw [List.find?_cons_of_neg (p := fun q => q.1 == id) tl (by simp [h])]

theorem findById_map_set (db : GameDB) (id : String) (g2 : Game)
    (h : (findById db id).isSome = true) :
    findById (db.map (fun p => if p.1 == id then (p.1, g2) else p)) id
      = some g2 := by
  induction db with
  | nil => simp [findById] at h
  | cons hd tl ih =>
    obtain ⟨k, v⟩ := hd
    rw [List.map_cons]
    by_cases hk : (k == id) = true
    · have he : (if (k, v).1 == id then ((k, v).1, g2) else (k, v)) = (k, g2) := by
        simp [hk]
      rw [he, findById_cons_pos k g2 _ id hk]
    · have hkf : (k == id) = false := by simpa using hk
      have he : (if (k, v).1 == id then ((k, v).1, g2) else (k, v)) = (k, v) := by
        simp [hkf]
      rw [he, findById_cons_neg k v _ id hkf]
      apply ih
      rwa [findById_cons_neg k v tl id hkf] at h

theorem findByIdAndUpdate_found (db : GameDB) (id : String) (u : GameUpdate)
    (g : Game) (h : findById db id = some g) :
    findByIdAndUpdate db id u =
      (some (applyGameUpdate g u),
       db.map (fun p => if p.1 == id then (p.1, applyGameUpdate g u) else p)) := by
  simp [findByIdAndUpdate, h]

theorem applyGameUpdate_simUpdate (g : Game) (hl : Highlight) (home away : Nat) :
    applyGameUpdate g (simUpdate hl home away) =
      { g with scores := { home := home, away := away },
               highlights := g.highlights ++ [hl] } := by
  simp [applyGameUpdate, simUpdate]

theorem simulateGameEvent_found_cases (db : GameDB) (id : String)
    (playersColl : List Player) (r : SimRandom) (g : Game)
    (hfind : findById db id = some g) :
    (playersColl.take 10 = [] ∧
      simulateGameEvent db id playersColl r = (SimResult.noPlayers, db)) ∨
    (∃ ev hl ug db2,
      simulateGameEvent db id playersColl r = (SimResult.ok ev hl (some ug), db2) ∧
      ug.highlights = g.highlights ++ [hl] ∧
      hl.type = HighlightType.score ∧
      ug.status = g.status ∧ ug.quarter = g.quarter ∧
      ug.timeRemaining = g.timeRemaining ∧
      findById db2 id = some ug) := by
  have hlt : r.eventIndex % eventTypes.length < eventTypes.length :=
    Nat.mod_lt _ (by decide)
  by_cases hp : playersColl.take 10 = []
  · left
    refine ⟨hp, ?_⟩
    simp [simulateGameEvent, hfind, List.getElem?_eq_getElem hlt, hp]
  · right
    have hlen : playersColl.take 10 ≠ [] := hp
    have hpos : 0 < (playersColl.take 10).length :=
      List.length_pos.mpr hlen
    have hplt : r.playerIndex % (playersColl.take 10).length
        < (playersColl.take 10).length := Nat.mod_lt _ hpos
    set player := (playersColl.take 10).get ⟨_, hplt⟩ with hplayer
    set randomEvent := eventTypes.get ⟨_, hlt⟩ with hre
    set hl : Highlight :=
      { time := g.timeRemaining
        quarter := g.quarter
        description := player.firstName ++ " " ++ player.lastName
          ++ " " ++ getEventDescription randomEvent
        player := some player._id
        type := HighlightType.score } with hhl
    set scoreUpdates : Nat × Nat :=
      (if randomEvent == "2pt-made" then
         if r.isHomeTeam then (g.scores.home + 2, g.scores.away)
         else (g.scores.home, g.scores.away + 2)
       else if randomEvent == "3pt-made" then
         if r.isHomeTeam then (g.scores.home + 3, g.scores.away)
         else (g.scores.home, g.scores.away + 3)
       else (g.scores.home, g.scores.away)) with hsu
    set ug := applyGameUpdate g (simUpdate hl scoreUpdates.1 scoreUpdates.2) with hug
    refine ⟨randomEvent, hl, ug,
      db.map (fun p => if p.1 == id then (p.1, ug) else p), ?_, ?_, rfl, ?_, ?_, ?_, ?_⟩
    · simp only [simulateGameEvent, hfind, List.getElem?_eq_getElem hlt,
        List.getElem?_eq_getElem hplt,
        findByIdAndUpdate_found db id _ g hfind]
      rw [if_neg (by simpa [List.length_eq_zero] using hlen)]
      simp [hug, hhl, hsu, hre, hplayer, List.get_eq_getElem]
    · simp [hug, applyGameUpdate_simUpdate]
    · simp [hug, applyGameUpdate_simUpdate]
    · simp [hug, applyGameUpdate_simUpdate]
    · simp [hug, applyGameUpdate_simUpdate]
    · exact findById_map_set db id ug (by simp [hfind])

theorem foldl_push_updates_length (us : List GameUpdate) (g : Game)
    (hus : ∀ u ∈ us, u.setHighlights = none ∧ u.pushHighlights.length = 1) :
    (us.foldl applyGameUpdate g).highlights.length
      = g.highlights.length + us.length := by
  induction us generalizing g with
  | nil => simp
  | cons u tl ih =>
    have hu := hus u (List.mem_cons_self u tl)
    have h1 : (applyGameUpdate g u).highlights.length
        = g.highlights.length + 1 := by
      simp [applyGameUpdate, hu.1, hu.2]
    rw [List.foldl_cons, ih (applyGameUpdate g u)
      (fun v hv => hus v (List.mem_cons_of_mem u hv)), h1]
    simp only [List.length_cons]
    omega

theorem foldl_queryDate_fst (playerId : Nat)
    (fetch : Nat → Except String (List StatRecord)) (dates : List Nat)
    (acc : List StatRecord × List Nat) :
    (dates.foldl (queryDate playerId fetch) acc).1
      = acc.1 ++ (dates.map (perDayRecords playerId fetch)).flatten := by
  induction dates generalizing acc with
  | nil => simp
  | cons d tl ih =>
    rw [List.foldl_cons, ih]
    cases hf : fetch d <;>
      simp [queryDate, perDayRecords, hf, List.append_assoc]

theorem foldl_queryDate_snd (playerId : Nat)
    (fetch : Nat → Except String (List StatRecord)) (dates : List Nat)
    (acc : List StatRecord × List Nat) :
    (dates.foldl (queryDate playerId fetch) acc).2 = acc.2 ++ dates := by
  induction dates generalizing acc with
  | nil => simp
  | cons d tl ih =>
    rw [List.foldl_cons, ih]
    cases hf : fetch d <;> simp [queryDate, hf]

theorem getDatesInRange_nodup (startDate endDate : Nat) :
    (getDatesInRange startDate endDate).Nodup := by
  unfold getDatesInRange
  exact (List.nodup_range _).map (fun i j h => by omega)

theorem mem_getDatesInRange (startDate endDate d : Nat) :
    d ∈ getDatesInRange startDate endDate
      ↔ startDate ≤ d ∧ d ≤ endDate := by
  unfold getDatesInRange
  simp only [List.mem_map, List.mem_range]
  constructor
  · rintro ⟨i, hi, rfl⟩
    omega
  · rintro ⟨h1, h2⟩
    exact ⟨d - startDate, by omega, by omega⟩

/-! ### C1 -/

/-- C1, counterexample: the claim says simulating a `final` game always
fails with `InvalidStateError` and never mutates state.  On the concrete
final game `finalGame`, `simulateGameEvent` instead succeeds (there is no
status check anywhere in the function, and no `InvalidStateError` exists in
the repository) and persists a changed document: score incremented and a
highlight appended. -/
theorem C1_counterexample_final_game_simulation_succeeds :
    finalGame.status = GameStatus.final ∧
    simulateGameEvent finalDB "g100" [lebronDoc] simRandomDraw
      = (SimResult.ok "2pt-made" finalHl (some finalUpdatedGame),
         [("g100", finalUpdatedGame)]) ∧
    [("g100", finalUpdatedGame)] ≠ finalDB := by
  decide

/-- C1, amended: `simulateGameEvent` performs no status check; on a game
whose status is `final` it behaves exactly as on a live game — with a
non-empty player pool it succeeds, appends one highlight and persists the
mutation (and the status stays `final`). -/
theorem C1_amended_simulateGameEvent_ignores_final_status
    (db : GameDB) (id : String) (playersColl : List Player) (r : SimRandom)
    (g : Game) (hfind : findById db id = some g)
    (hfinal : g.status = GameStatus.final)
    (hplayers : playersColl.take 10 ≠ []) :
    ∃ ev hl ug db2,
      simulateGameEvent db id playersColl r
        = (SimResult.ok ev hl (some ug), db2) ∧
      ug.highlights = g.highlights ++ [hl] ∧
      ug.status = GameStatus.final ∧
      findById db2 id = some ug := by
  rcases simulateGameEvent_found_cases db id playersColl r g hfind with
    ⟨h1, _⟩ | ⟨ev, hl, ug, db2, heq, hhl, _, hst, _, _, hf2⟩
  · exact absurd h1 hplayers
  · exact ⟨ev, hl, ug, db2, heq, hhl, by rw [hst, hfinal], hf2⟩

/-- C1, witness for the amended theorem at the concrete final game. -/
theorem C1_witness :
    ∃ ev hl ug db2,
      simulateGameEvent finalDB "g100" [lebronDoc] simRandomDraw
        = (SimResult.ok ev hl (some ug), db2) ∧
      ug.highlights = finalGame.highlights ++ [hl] ∧
      ug.status = GameStatus.final ∧
      findById db2 "g100" = some ug :=
  C1_amended_simulateGameEvent_ignores_final_status finalDB "g100" [lebronDoc]
    simRandomDraw finalGame (by decide) (by decide) (by decide)

/-! ### C2 -/

/-- C2: for an existing game with status `live`, `simulateGameEvent` either
(a) succeeds, the persisted highlight log being exactly the prior log with
the one new highlight appended as last element (prior elements unchanged),
or (b) fails with the defined empty-player-pool error and returns the games
collection byte-for-byte unchanged (the only other defined failure, game
absent, is excluded by the existence hypothesis; the two defensive 500
branches are proved unreachable). -/
theorem C2_simulateEvent_live_appends_or_fails_clean
    (db : GameDB) (id : String) (playersColl : List Player) (r : SimRandom)
    (g : Game) (hfind : findById db id = some g)
    (hlive : g.status = GameStatus.live) :
    (∃ ev hl ug db2,
      simulateGameEvent db id playersColl r
        = (SimResult.ok ev hl (some ug), db2) ∧
      ug.highlights = g.highlights ++ [hl] ∧
      findById db2 id = some ug) ∨
    simulateGameEvent db id playersColl r = (SimResult.noPlayers, db) := by
  rcases simulateGameEvent_found_cases db id playersColl r g hfind with
    ⟨_, h2⟩ | ⟨ev, hl, ug, db2, heq, hhl, _, _, _, _, hf2⟩
  · exact Or.inr h2
  · exact Or.inl ⟨ev, hl, ug, db2, heq, hhl, hf2⟩

/-- C2, witness at the concrete live game (non-empty pool: the success
branch with prefix-preserving append). -/
theorem C2_witness :
    (∃ ev hl ug db2,
      simulateGameEvent liveDB "g200" [lebronDoc] simRandomDraw
        = (SimResult.ok ev hl (some ug), db2) ∧
      ug.highlights = liveGame.highlights ++ [hl] ∧
      findById db2 "g200" = some ug) ∨
    simulateGameEvent liveDB "g200" [lebronDoc] simRandomDraw
      = (SimResult.noPlayers, liveDB) :=
  C2_simulateEvent_live_appends_or_fails_clean liveDB "g200" [lebronDoc]
    simRandomDraw liveGame (by decide) (by decide)

/-! ### C3 -/

/-- C3, counterexample: the claim says no update operation can move a
`final` game back to `live` or `scheduled`.  `updateGameScore` applies a
status patch with no transition check: on the concrete final game a
`status := scheduled` patch is accepted and persisted. -/
theorem C3_counterexample_final_regresses_to_scheduled :
    finalGame.status = GameStatus.final ∧
    (updateGameScore finalDB "g100" regressPatch).1
      = UpdateScoreResult.ok
          { gameId := "G100", status := GameStatus.scheduled, quarter := 4,
            timeRemaining := "0:00", scores := { home := 101, away := 99 },
            highlights := [] } := by
  decide

/-- C3, amended: `updateGameScore` applies whatever status the patch
carries, regardless of the game's current status; the schema only restricts
the value to the enumeration, not the transition direction, so a `final`
game can be moved back to `live` or `scheduled`. -/
theorem C3_amended_updateGameScore_applies_any_status
    (db : GameDB) (id : String) (p : ScorePatch) (g : Game) (s : GameStatus)
    (hfind : findById db id = some g) (hs : p.status = some s) :
    updateGameScore db id p
      = (UpdateScoreResult.ok (applyGameUpdate g (updateScoreDoc p)),
         db.map (fun q =>
           if q.1 == id then (q.1, applyGameUpdate g (updateScoreDoc p)) else q)) ∧
    (applyGameUpdate g (updateScoreDoc p)).status = s := by
  constructor
  · simp [updateGameScore, findByIdAndUpdate_found db id _ g hfind]
  · simp [applyGameUpdate, updateScoreDoc, hs]

/-- C3, witness for the amended theorem: the concrete regression from
`final` to `scheduled`. -/
theorem C3_witness :
    updateGameScore finalDB "g100" regressPatch
      = (UpdateScoreResult.ok (applyGameUpdate finalGame (updateScoreDoc regressPatch)),
         finalDB.map (fun q =>
           if q.1 == "g100" then
             (q.1, applyGameUpdate finalGame (updateScoreDoc regressPatch)) else q)) ∧
    (applyGameUpdate finalGame (updateScoreDoc regressPatch)).status
      = GameStatus.scheduled :=
  C3_amended_updateGameScore_applies_any_status finalDB "g100" regressPatch
    finalGame GameStatus.scheduled (by decide) (by decide)

/-! ### C4 -/

/-- C4: the persistence step of `simulateGameEvent` issues an update
document whose highlight part is a `$push` of exactly the one new highlight
and never a whole-list overwrite (`setHighlights = none`); consequently any
serialization of `N` concurrent such atomic updates grows the highlight log
by exactly `N` entries — no append is lost — while the `$set` scalar score
fields resolve last-writer-wins. -/
theorem C4_highlight_persistence_append_only
    (hl : Highlight) (home away : Nat) (g : Game) (us : List GameUpdate)
    (hus : ∀ u ∈ us, u.setHighlights = none ∧ u.pushHighlights.length = 1) :
    (simUpdate hl home away).setHighlights = none ∧
    (simUpdate hl home away).pushHighlights = [hl] ∧
    (us.foldl applyGameUpdate g).highlights.length
      = g.highlights.length + us.length :=
  ⟨rfl, rfl, foldl_push_updates_length us g hus⟩

/-- C4, witness: ten copies of the simulation's update document applied to
the live game grow its log by exactly ten (the spec's 10-concurrent-calls
scenario, serialized in one of its interleavings). -/
theorem C4_witness :
    (simUpdate finalHl 42 40).setHighlights = none ∧
    (simUpdate finalHl 42 40).pushHighlights = [finalHl] ∧
    ((List.replicate 10 (simUpdate finalHl 42 40)).foldl applyGameUpdate
        liveGame).highlights.length
      = liveGame.highlights.length
        + (List.replicate 10 (simUpdate finalHl 42 40)).length :=
  C4_highlight_persistence_append_only finalHl 42 40 liveGame
    (List.replicate 10 (simUpdate finalHl 42 40)) (by decide)

/-! ### C10 -/

/-- C10: every highlight `simulateGameEvent` returns (and persists) carries
the type tag `score`, whatever event type was drawn — the tags `turnover`,
`foul` and `timeout` are never produced by simulation. -/
theorem C10_simulated_highlights_always_tagged_score
    (db : GameDB) (id : String) (playersColl : List Player) (r : SimRandom)
    (ev : String) (hl : Highlight) (og : Option Game) (db2 : GameDB)
    (h : simulateGameEvent db id playersColl r = (SimResult.ok ev hl og, db2)) :
    hl.type = HighlightType.score ∧ hl.type ≠ HighlightType.turnover ∧
    hl.type ≠ HighlightType.foul ∧ hl.type ≠ HighlightType.timeout := by
  cases hdb : findById db id with
  | none =>
    simp only [simulateGameEvent, hdb] at h
    simp at h
  | some g =>
    rcases simulateGameEvent_found_cases db id playersColl r g hdb with
      ⟨_, h2⟩ | ⟨ev2, hl2, ug, db3, heq, _, htype, _, _, _, _⟩
    · rw [h2] at h
      simp at h
    · rw [heq] at h
      simp only [Prod.mk.injEq, SimResult.ok.injEq] at h
      obtain ⟨⟨_, hhl, _⟩, _⟩ := h
      subst hhl
      exact ⟨htype, by rw [htype]; decide, by rw [htype]; decide,
        by rw [htype]; decide⟩

/-- C10, witness: a drawn `turnover` event still yields a `score`-tagged
highlight. -/
theorem C10_witness :
    (tovHl liveGame).type = HighlightType.score ∧
    (tovHl liveGame).type ≠ HighlightType.turnover ∧
    (tovHl liveGame).type ≠ HighlightType.foul ∧
    (tovHl liveGame).type ≠ HighlightType.timeout :=
  C10_simulated_highlights_always_tagged_score liveDB "g200" [lebronDoc]
    { eventIndex := 5, playerIndex := 0, isHomeTeam := false }
    "turnover" (tovHl liveGame)
    (some { liveGame with highlights := liveGame.highlights ++ [tovHl liveGame] })
    [("g200", { liveGame with highlights := liveGame.highlights ++ [tovHl liveGame] })]
    (by decide)

theorem getPlayerGameStats_fetch_log (apiKey : String)
    (playerId startDate endDate : Nat)
    (fetch : Nat → Except String (List StatRecord)) (hk : apiKey ≠ "") :
    (getPlayerGameStats true apiKey playerId startDate endDate fetch).2
      = getDatesInRange startDate endDate := by
  have hkey : (apiKey == "") = false := beq_eq_false_iff_ne.mpr hk
  have hsnd := foldl_queryDate_snd playerId fetch
    (getDatesInRange startDate endDate) ([], [])
  simp only [List.nil_append] at hsnd
  simp only [getPlayerGameStats, hkey, Bool.not_true, Bool.false_or,
    Bool.false_eq_true, if_false]
  by_cases he : ((getDatesInRange startDate endDate).foldl
      (queryDate playerId fetch) ([], [])).1.isEmpty
  · rw [if_pos he]
    exact hsnd
  · rw [if_neg he]
    exact hsnd

theorem getPlayerGameStats_result_spec (apiKey : String)
    (playerId startDate endDate : Nat)
    (fetch : Nat → Except String (List StatRecord)) (hk : apiKey ≠ "") :
    (getPlayerGameStats true apiKey playerId startDate endDate fetch).1
      = (if ((getDatesInRange startDate endDate).map
            (perDayRecords playerId fetch)).flatten.isEmpty
         then Except.error "No game data found for player in date range"
         else Except.ok ((((getDatesInRange startDate endDate).map
            (perDayRecords playerId fetch)).flatten).map (fun game =>
              { id := game.StatID, pts := game.Points,
                player_id := game.PlayerID }))) := by
  have hkey : (apiKey == "") = false := beq_eq_false_iff_ne.mpr hk
  have hfst := foldl_queryDate_fst playerId fetch
    (getDatesInRange startDate endDate) ([], [])
  simp only [List.nil_append] at hfst
  simp only [getPlayerGameStats, hkey, Bool.not_true, Bool.false_or,
    Bool.false_eq_true, if_false, hfst]
  split <;> rfl

theorem perDayRecords_playerId (playerId : Nat)
    (fetch : Nat → Except String (List StatRecord)) (d : Nat) (q : StatRecord)
    (hq : q ∈ perDayRecords playerId fetch d) : q.PlayerID = playerId := by
  unfold perDayRecords at hq
  cases hf : fetch d with
  | ok data =>
    rw [hf] at hq
    have := (List.mem_filter.mp hq).2
    simpa using this
  | error e => rw [hf] at hq; simp at hq

/-! ### C5 -/

/-- C5: with the API configured, `getPlayerGameStats` issues exactly one
upstream fetch per calendar day of the inclusive range (the fetch log equals
the duplicate-free list of exactly the days between the bounds); each
fetched day's records are filtered to the requested player and concatenated
in range order; a day whose fetch fails contributes nothing and does not
abort the remaining days; and when the concatenation is empty after
exhausting the range the call fails with the no-data error rather than
returning an empty success. -/
theorem C5_per_day_fetch_skip_failed_days_nodata (apiKey : String)
    (playerId startDate endDate : Nat)
    (fetch : Nat → Except String (List StatRecord)) (hk : apiKey ≠ "") :
    (getPlayerGameStats true apiKey playerId startDate endDate fetch).2
        = getDatesInRange startDate endDate ∧
    (getDatesInRange startDate endDate).Nodup ∧
    (∀ d, d ∈ getDatesInRange startDate endDate
        ↔ startDate ≤ d ∧ d ≤ endDate) ∧
    (∀ q ∈ ((getDatesInRange startDate endDate).map
        (perDayRecords playerId fetch)).flatten, q.PlayerID = playerId) ∧
    (getPlayerGameStats true apiKey playerId startDate endDate fetch).1
      = (if ((getDatesInRange startDate endDate).map
            (perDayRecords playerId fetch)).flatten.isEmpty
         then Except.error "No game data found for player in date range"
         else Except.ok ((((getDatesInRange startDate endDate).map
            (perDayRecords playerId fetch)).flatten).map (fun game =>
              { id := game.StatID, pts := game.Points,
                player_id := game.PlayerID }))) := by
  refine ⟨getPlayerGameStats_fetch_log apiKey playerId startDate endDate fetch hk,
    getDatesInRange_nodup startDate endDate,
    fun d => mem_getDatesInRange startDate endDate d, ?_,
    getPlayerGameStats_result_spec apiKey playerId startDate endDate fetch hk⟩
  intro q hq
  rw [List.mem_flatten] at hq
  obtain ⟨l, hl, hql⟩ := hq
  rw [List.mem_map] at hl
  obtain ⟨d, _, rfl⟩ := hl
  exact perDayRecords_playerId playerId fetch d q hql

/-- C5, witness: the three-day range around the failing day is fetched day
by day. -/
theorem C5_witness :
    (getPlayerGameStats true "key" 1 10 12 fetchW).2 = getDatesInRange 10 12 :=
  (C5_per_day_fetch_skip_failed_days_nodata "key" 1 10 12 fetchW (by decide)).1

/-! ### C6 -/

/-- C6, counterexample: the claim says a per-day stats request serves a
cached record younger than the 24-hour TTL without a network call for that
day.  The per-day path (`getPlayerGameStats`) consults no store at all: on
a concrete state where a fresh cached record exists, the one-day request
still issues the upstream fetch for that day. -/
theorem C6_counterexample_fresh_cache_day_still_fetched :
    (getCachedPlayers [freshCachedLeBron] tNow 0 25).isSome = true ∧
    (getPlayerGameStats true "key" 20000679 500 500
        (fun d => Except.ok [{ StatID := d, PlayerID := 20000679,
                               Points := 30 }])).2
      = [500] := by
  decide

/-- C6, amended: the 24-hour-TTL cache discipline applies to the roster
path only — `getPlayers` serves a fresh cached roster without any network
call — while the per-day stats path performs no cache consultation and
fetches every day of the requested range unconditionally. -/
theorem C6_amended_cache_applies_to_roster_not_per_day (apiKey : String)
    (playerId startDate endDate : Nat)
    (fetch : Nat → Except String (List StatRecord))
    (page perPage : Nat) (playersColl : List Player) (now : Nat)
    (upstream : Except String (List RawSDPlayer)) (c : PlayersResult)
    (hk : apiKey ≠ "")
    (hcache : getCachedPlayers playersColl now page perPage = some c) :
    (getPlayerGameStats true apiKey playerId startDate endDate fetch).2
        = getDatesInRange startDate endDate ∧
    getPlayers true apiKey page perPage false playersColl now upstream
      = { result := c, playersColl := playersColl, networkCalled := false } := by
  refine ⟨getPlayerGameStats_fetch_log apiKey playerId startDate endDate fetch hk, ?_⟩
  simp [getPlayers, hcache]

/-- C6, witness: a fresh cached roster is served without a network call
even while the upstream is down, and the per-day path still fetches each
day. -/
theorem C6_witness :
    (getPlayerGameStats true "key" 20000679 700 701
        (fun _ => Except.error "down")).2 = getDatesInRange 700 701 ∧
    getPlayers true "key" 0 25 false [freshCachedLeBron] tNow
        (Except.error "down")
      = { result := cachedLeBronResult, playersColl := [freshCachedLeBron],
          networkCalled := false } :=
  C6_amended_cache_applies_to_roster_not_per_day "key" 20000679 700 701
    (fun _ => Except.error "down") 0 25 [freshCachedLeBron] tNow
    (Except.error "down") cachedLeBronResult (by decide) (by decide)

/-! ### C7 -/

/-- C7, counterexample: the claim says that on roster upstream failure the
result falls back first to the most recent successfully cached roster and
only if none exists to the developer dataset, tagged with its source.  On a
concrete state holding a previously cached (now stale) roster, the failing
fetch falls back directly to the developer dataset — the cached roster is
not consulted after the failure (`getCachedPlayers` is only called before
the fetch and only serves records within the TTL) — and the returned
`PlayersResult` is not the cached roster. -/
theorem C7_counterexample_failure_skips_cached_roster :
    ([staleCachedCurry].filter
        (fun p => p.dataSource == DataSource.sportsdata)).length = 1 ∧
    (getPlayers true "key" 0 25 false [staleCachedCurry] tStale
        (Except.error "ECONNREFUSED")).result = getDevelopmentPlayers 0 25 ∧
    (getPlayers true "key" 0 25 false [staleCachedCurry] tStale
        (Except.error "ECONNREFUSED")).result.data
      ≠ [cachedToAPIPlayer staleCachedCurry] := by
  decide

/-- C7, amended: whenever the fresh-cache lookup misses (no cached roster
young enough), an upstream failure of the roster fetch falls back directly
to the fixed developer dataset; the result record is shaped exactly like any
other roster response (`data` and pagination `meta`), with no data-source
tag. -/
theorem C7_amended_failure_falls_back_to_development_data (apiKey : String)
    (page perPage : Nat) (playersColl : List Player) (now : Nat) (e : String)
    (hk : apiKey ≠ "")
    (hcache : getCachedPlayers playersColl now page perPage = none) :
    getPlayers true apiKey page perPage false playersColl now
        (Except.error e)
      = { result := getDevelopmentPlayers page perPage
          playersColl := playersColl
          networkCalled := true } := by
  have hkey : (apiKey == "") = false := beq_eq_false_iff_ne.mpr hk
  simp [getPlayers, hcache, fetchFromSportsDataAPI, hkey]

/-- C7, witness: the concrete stale-cache state. -/
theorem C7_witness :
    getPlayers true "key" 0 25 false [staleCachedCurry] tStale
        (Except.error "ECONNREFUSED")
      = { result := getDevelopmentPlayers 0 25
          playersColl := [staleCachedCurry]
          networkCalled := true } :=
  C7_amended_failure_falls_back_to_development_data "key" 0 25
    [staleCachedCurry] tStale "ECONNREFUSED" (by decide) (by decide)

/-! ### C8 -/

/-- C8: a connection that is a member of game room `A` and successfully
joins game room `B` (the game exists) is afterwards a member of `B`'s room
and not of `A`'s — the handler evicts every `game-`-prefixed room other
than the socket's own id before joining, so a connection sits in at most
one game room — and the joining connection is sent the current game
snapshot in the `game-joined` event. -/
theorem C8_join_moves_connection_to_new_room
    (db : GameDB) (s : SocketState) (A B : String) (g : Game)
    (hfind : findById db B = some g)
    (hA : ("game-" ++ A) ∈ s.rooms)
    (hAid : ("game-" ++ A) ≠ s.id)
    (hAB : A ≠ B) :
    ("game-" ++ B) ∈ (joinGame db s B).1.rooms ∧
    ("game-" ++ A) ∉ (joinGame db s B).1.rooms ∧
    ({ target := EmitTarget.toSelf,
       event := SocketEvent.gameJoined B g ("Now watching game " ++ B) }
      : Emission) ∈ (joinGame db s B).2 := by
  have hpre : strStartsWith ("game-" ++ A) "game-" = true :=
    strStartsWith_append "game-" A
  have hAB2 : ("game-" ++ A) ≠ ("game-" ++ B) :=
    fun hcon => hAB (string_append_left_cancel hcon)
  have hnoA : ("game-" ++ A)
      ∉ s.rooms.filter
        (fun room => !(strStartsWith room "game-" && room != s.id)) := by
    intro hmem
    have h2 := (List.mem_filter.mp hmem).2
    rw [hpre, (show (("game-" ++ A) != s.id) = true from bne_iff_ne.mpr hAid)]
      at h2
    simp at h2
  have hj : joinGame db s B =
      ({ s with rooms :=
          (if (s.rooms.filter
                (fun room => !(strStartsWith room "game-" && room != s.id))).contains
              ("game-" ++ B)
           then s.rooms.filter
             (fun room => !(strStartsWith room "game-" && room != s.id))
           else s.rooms.filter
             (fun room => !(strStartsWith room "game-" && room != s.id))
             ++ ["game-" ++ B]) },
       [{ target := EmitTarget.toSelf,
          event := SocketEvent.gameJoined B g ("Now watching game " ++ B) },
        { target := EmitTarget.toRoom ("game-" ++ B),
          event := SocketEvent.userJoined s.id
            "A new viewer joined the game" }]) := by
    simp [joinGame, hfind]
  rw [hj]
  refine ⟨?_, ?_, List.mem_cons_self _ _⟩
  · by_cases hc : (s.rooms.filter
        (fun room => !(strStartsWith room "game-" && room != s.id))).contains
        ("game-" ++ B)
    · simp only [hc, if_true]
      exact List.mem_of_elem_eq_true hc
    · simp only [hc, if_false, Bool.false_eq_true]
      exact List.mem_append_right _ (List.mem_singleton.mpr rfl)
  · by_cases hc : (s.rooms.filter
        (fun room => !(strStartsWith room "game-" && room != s.id))).contains
        ("game-" ++ B)
    · simp only [hc, if_true]
      exact hnoA
    · simp only [hc, if_false, Bool.false_eq_true]
      intro hmem
      rcases List.mem_append.mp hmem with hmem1 | hmem2
      · exact hnoA hmem1
      · exact hAB2 (List.mem_singleton.mp hmem2)

/-- C8, witness: the concrete connection moves from room `game-old` to room
`game-g200` and receives the snapshot. -/
theorem C8_witness :
    ("game-" ++ "g200") ∈ (joinGame liveDB sockW "g200").1.rooms ∧
    ("game-" ++ "old") ∉ (joinGame liveDB sockW "g200").1.rooms ∧
    ({ target := EmitTarget.toSelf,
       event := SocketEvent.gameJoined "g200" liveGame
         ("Now watching game " ++ "g200") } : Emission)
      ∈ (joinGame liveDB sockW "g200").2 :=
  C8_join_moves_connection_to_new_room liveDB sockW "old" "g200" liveGame
    (by decide) (by decide) (by decide) (by decide)

/-! ### C9 -/

/-- C9, counterexample: the claim says a `game-action` with
`simulate-event` invokes the simulation engine so that the game state is
advanced and persisted.  On the concrete live game the handler leaves the
games collection untouched and merely re-broadcasts a `simulation-event`
message with the raw payload, while an actual engine call at the same state
would have changed the collection. -/
theorem C9_counterexample_gateway_does_not_invoke_engine :
    (handleGameAction liveDB sockSim "g200" "simulate-event" "go").1
      = liveDB ∧
    (handleGameAction liveDB sockSim "g200" "simulate-event" "go").2
      = [{ target := EmitTarget.toRoom "game-g200",
           event := SocketEvent.simulationEvent "go" }] ∧
    (simulateGameEvent liveDB "g200" [lebronDoc] simRandomDraw).2 ≠ liveDB := by
  decide

/-- C9, amended: for a member connection and an existing game, the
gateway's `simulate-event` branch does not call the simulation engine: it
returns the games collection unchanged and emits exactly one
`simulation-event` broadcast to the game's room carrying the payload
verbatim — game state is neither advanced nor persisted by this path. -/
theorem C9_amended_gateway_only_rebroadcasts
    (db : GameDB) (s : SocketState) (gameId payload : String) (g : Game)
    (hroom : s.rooms.contains ("game-" ++ gameId) = true)
    (hfind : findById db gameId = some g) :
    handleGameAction db s gameId "simulate-event" payload
      = (db, [{ target := EmitTarget.toRoom ("game-" ++ gameId),
                event := SocketEvent.simulationEvent payload }]) := by
  have hmem : ("game-" ++ gameId) ∈ s.rooms :=
    List.mem_of_elem_eq_true hroom
  simp [handleGameAction, hroom, hfind, hmem]

/-- C9, witness for the amended theorem at the concrete live game. -/
theorem C9_witness :
    handleGameAction liveDB sockSim "g200" "simulate-event" "go"
      = (liveDB, [{ target := EmitTarget.toRoom ("game-" ++ "g200"),
                    event := SocketEvent.simulationEvent "go" }]) :=
  C9_amended_gateway_only_rebroadcasts liveDB sockSim "g200" "go" liveGame
    (by decide) (by decide)

example :
    (simulateGameEvent
      [("g1", { gameId := "G1", status := GameStatus.live, quarter := 1,
                timeRemaining := "12:00", scores := { home := 0, away := 0 },
                highlights := [] })]
      "g1"
      [{ _id := 7, playerId := 1, firstName := "LeBron", lastName := "James",
         position := "F", team := "Los Angeles Lakers", height := "6'8\"",
         weight := 250, dataSource := DataSource.manual, lastUpdated := 0 }]
      { eventIndex := 0, playerIndex := 0, isHomeTeam := true }).1
    = SimResult.ok "2pt-made"
        { time := "12:00", quarter := 1,
          description := "LeBron James makes a 2-point shot",
          player := some 7, type := HighlightType.score }
        (some { gameId := "G1", status := GameStatus.live, quarter := 1,
                timeRemaining := "12:00", scores := { home := 2, away := 0 },
                highlights := [{ time := "12:00", quarter := 1,
                                 description := "LeBron James makes a 2-point shot",
                                 player := some 7, type := HighlightType.score }] }) := by
  decide
